import Mathlib

/-!
Verification development for the Solana Attestation Service core
(create attestation / close attestation processors and the shared
validation helpers), shallowly embedded from the security review of
program/src/processor/create_attestation.rs and
program/src/processor/close_attestation.rs.

Machine integers: lamport balances are u64 and are modelled as Nat with
explicit overflow checks against 2^64.  Public keys are modelled as Nat
(only equality on keys is ever used by the program).  Timestamps are i64
and are modelled as Int.  Fallible processor code returns Except.
-/

namespace Sas

abbrev Pubkey := Nat

/-- Pubkey::default(), the all-zero public key. -/
def defaultPubkey : Pubkey := 0

/-- Modelled from the spec: section 4.1 address derivation.  The concrete
find_program_address hashing (SHA-256 based) is external to src/; the spec
requires only a pure, deterministic, collision-resistant map from a
domain-separated seed tuple to an address, which we realise by an injective
encoding of the seed list built from the Cantor-style pairing function. -/
def encodeSeeds : List Nat → Nat
  | [] => 0
  | a :: r => Nat.pair a (encodeSeeds r) + 1

/-- Modelled from the spec: section 4.1, the derive function applied to a
seed tuple (the program id is fixed and therefore omitted). -/
def find_program_address (seeds : List Nat) : Pubkey := encodeSeeds seeds

/-- Domain tag for the seed literal b"credential". -/
def credentialSeedTag : Nat := 1
/-- Domain tag for the seed literal b"schema". -/
def schemaSeedTag : Nat := 2
/-- Domain tag for the seed literal ATTESTATION_SEED = b"attestation". -/
def attestationSeedTag : Nat := 3
/-- Domain tag for the event-authority seed literal. -/
def eventAuthoritySeedTag : Nat := 4

/-- Credential PDA: seeds = [b"credential", authority, name]. -/
def deriveCredentialPda (authority : Pubkey) (name : List Nat) : Pubkey :=
  find_program_address [credentialSeedTag, authority, encodeSeeds name]

/-- Schema PDA: seeds = [b"schema", credential, name, version]. -/
def deriveSchemaPda (credential : Pubkey) (name : List Nat) (version : Nat) : Pubkey :=
  find_program_address [schemaSeedTag, credential, encodeSeeds name, version]

/-- Attestation PDA: seeds = [ATTESTATION_SEED, credential key, schema key,
nonce] (create_attestation.rs:71-84). -/
def deriveAttestationPda (credential schema nonce : Pubkey) : Pubkey :=
  find_program_address [attestationSeedTag, credential, schema, nonce]

/-- The precomputed constant event_authority_pda::ID, derived once with the
fixed event-authority domain tag (close_attestation.rs:78-80). -/
def eventAuthorityId : Pubkey := find_program_address [eventAuthoritySeedTag]

/-- pinocchio_system::ID, the system program id. -/
def systemProgramId : Pubkey := 11111

/-- Credential account state: authority, name and the ordered list of
authorized signer identities. -/
structure Credential where
  authority : Pubkey
  name : List Nat
  authorized_signers : List Pubkey
deriving DecidableEq

/-- Schema account state: parent credential key, name, version, field type
code layout and the mutable paused flag. -/
structure Schema where
  credential : Pubkey
  name : List Nat
  version : Nat
  layout : List Nat
  is_paused : Bool
deriving DecidableEq

/-- Attestation account state (create_attestation.rs:88-97 layout):
nonce, credential ref, schema ref, data payload, signer, expiry and the
token account reference (default pubkey when not tokenized). -/
structure Attestation where
  nonce : Pubkey
  credential : Pubkey
  schema : Pubkey
  data : List Nat
  signer : Pubkey
  expiry : Int
  token_account : Pubkey
deriving DecidableEq

/-- Stored bytes of an account, viewed through the entity discriminator:
a well-formed credential, schema or attestation record, or anything else
(raw/empty data that fails entity deserialization). -/
inductive AccountData where
  | credentialData (c : Credential)
  | schemaData (s : Schema)
  | attestationData (a : Attestation)
  | empty
deriving DecidableEq

/-- An account reference as the processor sees it. -/
structure AccountInfo where
  key : Pubkey
  owner : Pubkey
  is_signer : Bool
  is_writable : Bool
  lamports : Nat
  data : AccountData
deriving DecidableEq

/-- Error taxonomy of the two processors (Error Code Summary sections of
the security reviews).  ArithmeticOverflow models the aborting
checked_add().unwrap() panic in close_attestation.rs:70-75. -/
inductive SasError where
  | MissingRequiredSignature
  | IncorrectProgramId
  | InvalidAccountOwner
  | InvalidAccountData
  | InvalidAuthority
  | SchemaPaused
  | InvalidCredential
  | InvalidAttestation
  | InvalidAttestationData
  | InvalidTokenAccount
  | InvalidEventAuthority
  | ArithmeticOverflow
deriving DecidableEq

instance {ε α : Type} [DecidableEq ε] [DecidableEq α] : DecidableEq (Except ε α) :=
  fun x y =>
    match x, y with
    | .ok a, .ok b =>
        if h : a = b then .isTrue (congrArg Except.ok h)
        else .isFalse (fun heq => h (Except.ok.inj heq))
    | .error a, .error b =>
        if h : a = b then .isTrue (congrArg Except.error h)
        else .isFalse (fun heq => h (Except.error.inj heq))
    | .ok _, .error _ => .isFalse (fun heq => Except.noConfusion heq)
    | .error _, .ok _ => .isFalse (fun heq => Except.noConfusion heq)

/-- verify_signer(account, false): the account must have signed. -/
def verify_signer (a : AccountInfo) : Except SasError Unit :=
  if a.is_signer then .ok () else .error .MissingRequiredSignature

/-- verify_system_program: account key must equal pinocchio_system::ID. -/
def verify_system_program (a : AccountInfo) : Except SasError Unit :=
  if a.key = systemProgramId then .ok () else .error .IncorrectProgramId

/-- verify_current_program: account key must equal the running program id. -/
def verify_current_program (pid : Pubkey) (a : AccountInfo) : Except SasError Unit :=
  if a.key = pid then .ok () else .error .IncorrectProgramId

/-- verify_owner_mutability(account, program_id, needs_writable). -/
def verify_owner_mutability (a : AccountInfo) (pid : Pubkey) (needs_writable : Bool) :
    Except SasError Unit :=
  if a.owner ≠ pid then .error .InvalidAccountOwner
  else if needs_writable && !a.is_writable then .error .InvalidAccountData
  else .ok ()

/-- Credential::try_from_bytes: deserialize and check the discriminator. -/
def Credential.try_from_bytes : AccountData → Except SasError Credential
  | .credentialData c => .ok c
  | _ => .error .InvalidAccountData

/-- Schema::try_from_bytes: deserialize and check the discriminator. -/
def Schema.try_from_bytes : AccountData → Except SasError Schema
  | .schemaData s => .ok s
  | _ => .error .InvalidAccountData

/-- Attestation::try_from_bytes: deserialize and check the discriminator. -/
def Attestation.try_from_bytes : AccountData → Except SasError Attestation
  | .attestationData a => .ok a
  | _ => .error .InvalidAccountData

/-- credential.validate_authorized_signer(key): the key must be a member of
the credential authorized-signer list (create_attestation.rs:47,
close_attestation.rs:49). -/
def Credential.validate_authorized_signer (c : Credential) (k : Pubkey) :
    Except SasError Unit :=
  if k ∈ c.authorized_signers then .ok () else .error .InvalidAuthority

/-- Modelled from the spec: section 4.2 codec validate walk (the
attestation.validate_data implementation in program/src/state is absent
from src/).  Walks the buffer consuming exactly the bytes each type code
demands: type code 0 is a 1-byte u8, type code 12 is a string with a
4-byte little-endian length prefix; underflow, leftover bytes or a prefix
claiming more bytes than remain fail. -/
def validateWalk : List Nat → List Nat → Bool
  | [], [] => true
  | [], _ :: _ => false
  | 0 :: lt, _ :: bt => validateWalk lt bt
  | 0 :: _, [] => false
  | 12 :: lt, b0 :: b1 :: b2 :: b3 :: bt =>
      let len := b0 + 256 * b1 + 65536 * b2 + 16777216 * b3
      if len ≤ bt.length then validateWalk lt (bt.drop len) else false
  | 12 :: _, _ => false
  | _ :: _, _ => false

/-- attestation.validate_data(layout) (create_attestation.rs:130). -/
def Attestation.validate_data (a : Attestation) (layout : List Nat) : Bool :=
  validateWalk layout a.data

/-- Steps of the create-attestation processor that touch storage, in the
order the source performs them; recorded in the success trace. -/
inductive Step where
  | derivePda
  | computeSpace
  | allocate
  | validateData
  | write
deriving DecidableEq

/-- Parsed instruction arguments of create attestation
(create_attestation.rs:144-167): nonce (32 bytes), length-prefixed data,
expiry (i64) and the optional token account reference. -/
structure CreateArgs where
  nonce : Pubkey
  data : List Nat
  expiry : Int
  token_account : Option Pubkey
deriving DecidableEq

/-- The exactly-6 account list of create attestation
(create_attestation.rs:28-32). -/
structure CreateAccounts where
  payer : AccountInfo
  authorized_signer : AccountInfo
  credential_info : AccountInfo
  schema_info : AccountInfo
  attestation_info : AccountInfo
  system_program : AccountInfo
deriving DecidableEq

/-- The attestation record assembled by create attestation before the
final write (create_attestation.rs:119-128). -/
def mkAttestation (args : CreateArgs) (accs : CreateAccounts) : Attestation :=
  { nonce := args.nonce
    credential := accs.credential_info.key
    schema := accs.schema_info.key
    data := args.data
    signer := accs.authorized_signer.key
    expiry := args.expiry
    token_account := args.token_account.getD defaultPubkey }

/-- Account space: discriminator(1) + nonce(32) + credential(32) +
schema(32) + data(4+len) + signer(32) + expiry(8) + token account(32)
(create_attestation.rs:88-97). -/
def attestationSpace (args : CreateArgs) : Nat :=
  1 + 32 + 32 + 32 + (4 + args.data.length) + 32 + 8 + 32

/-- The success trace of create attestation: the storage-touching steps in
the order the source performs them (create_attestation.rs:71-84 PDA
derivation, 97 space calculation, 109-117 allocation, 130 data layout
validation, 133 record write). -/
def createTrace : List Step :=
  [.derivePda, .computeSpace, .allocate, .validateData, .write]

/-- process_create_attestation (create_attestation.rs:21-136), checks in
source order: signer signature (line 35), system program (38), credential
and schema ownership (40-41), credential deserialization (44), authorized
signer membership (47), schema deserialization (50), schema paused (53-55),
schema-credential binding (58-60), expiry staleness (63-66), attestation
PDA derivation check (71-84), space calculation (97), PDA account creation
(109-117), data layout validation (130), record write (133).  On success
it returns the written record, the allocated space and the trace of the
storage-touching steps in execution order; on error nothing is mutated. -/
def process_create_attestation (pid : Pubkey) (now : Int) (args : CreateArgs)
    (accs : CreateAccounts) : Except SasError (Attestation × Nat × List Step) :=
  (verify_signer accs.authorized_signer).bind fun _ =>
  (verify_system_program accs.system_program).bind fun _ =>
  (verify_owner_mutability accs.credential_info pid false).bind fun _ =>
  (verify_owner_mutability accs.schema_info pid false).bind fun _ =>
  (Credential.try_from_bytes accs.credential_info.data).bind fun credential =>
  (credential.validate_authorized_signer accs.authorized_signer.key).bind fun _ =>
  (Schema.try_from_bytes accs.schema_info.data).bind fun schema =>
  if schema.is_paused then .error .SchemaPaused
  else if schema.credential ≠ accs.credential_info.key then .error .InvalidCredential
  else if args.expiry < now ∧ args.expiry ≠ 0 then .error .InvalidAttestationData
  -- find_program_address and the account key comparison
  -- (create_attestation.rs:71-84).
  else if accs.attestation_info.key ≠
      deriveAttestationPda accs.credential_info.key accs.schema_info.key args.nonce then
    .error .InvalidAttestation
  -- The space calculation (create_attestation.rs:97) and the
  -- create_pda_account storage allocation (create_attestation.rs:109-117)
  -- happen here, BEFORE the data layout validation
  -- (create_attestation.rs:130); createTrace records that execution order
  -- for the success path.
  else if (mkAttestation args accs).validate_data schema.layout = false then
    .error .InvalidAttestationData
  -- Final record write (create_attestation.rs:133).
  else .ok (mkAttestation args accs, attestationSpace args, createTrace)

/-- The exactly-7 account list of close attestation
(close_attestation.rs:27-31). -/
structure CloseAccounts where
  payer : AccountInfo
  authorized_signer : AccountInfo
  credential_info : AccountInfo
  attestation_info : AccountInfo
  event_authority_info : AccountInfo
  system_program : AccountInfo
  attestation_program : AccountInfo
deriving DecidableEq

/-- The closure audit event: schema reference plus the full pre-closure
data payload (close_attestation.rs:82-99). -/
structure CloseEvent where
  schema : Pubkey
  attestation_data : List Nat
deriving DecidableEq

/-- Observable outcome of a successful close: final payer and attestation
balances, the closed flag and the emitted audit event. -/
structure CloseResult where
  payer_lamports : Nat
  attestation_lamports : Nat
  attestation_closed : Bool
  event : Option CloseEvent
deriving DecidableEq

/-- u64 overflow bound for lamport arithmetic. -/
def u64Modulus : Nat := 2 ^ 64

/-- u64::checked_add: None instead of wrapping on overflow. -/
def checked_add_u64 (a b : Nat) : Option Nat :=
  if a + b < u64Modulus then some (a + b) else none

/-- process_close_attestation (close_attestation.rs:22-102), checks in
source order: signer signature (line 34), system program (37), current
program (40), credential ownership (43), attestation ownership and
writability (44), credential deserialization (48), authorized signer
membership (49), attestation deserialization (52), token account
consistency (56-62), credential-attestation binding (65-67), lamport
transfer with checked_add().unwrap() and balance zeroing (70-75), event
authority equality (78-80), event emission (82-99).  An error at any point
— including the aborting overflow panic — leaves every account unchanged
(host-level rollback), which the Except error encodes. -/
def process_close_attestation (pid : Pubkey) (token_account : Option Pubkey)
    (accs : CloseAccounts) : Except SasError CloseResult :=
  (verify_signer accs.authorized_signer).bind fun _ =>
  (verify_system_program accs.system_program).bind fun _ =>
  (verify_current_program pid accs.attestation_program).bind fun _ =>
  (verify_owner_mutability accs.credential_info pid false).bind fun _ =>
  (verify_owner_mutability accs.attestation_info pid true).bind fun _ =>
  (Credential.try_from_bytes accs.credential_info.data).bind fun credential =>
  (credential.validate_authorized_signer accs.authorized_signer.key).bind fun _ =>
  (Attestation.try_from_bytes accs.attestation_info.data).bind fun attestation =>
  -- close_attestation.rs:56-62.
  (match token_account with
    | some t =>
        if t ≠ attestation.token_account then Except.error SasError.InvalidTokenAccount
        else Except.ok ()
    | none =>
        if attestation.token_account ≠ defaultPubkey then Except.error SasError.InvalidTokenAccount
        else Except.ok ()).bind fun _ =>
  -- close_attestation.rs:65-67.
  if attestation.credential ≠ accs.credential_info.key then .error .InvalidCredential
  else
    -- Lamport transfer via checked_add().unwrap() (close_attestation.rs:70-75).
    match checked_add_u64 accs.payer.lamports accs.attestation_info.lamports with
    | none => .error .ArithmeticOverflow
    | some new_payer =>
      -- close_attestation.rs:78-80.
      if accs.event_authority_info.key ≠ eventAuthorityId then .error .InvalidEventAuthority
      else
        -- close_attestation.rs:82-99.
        .ok { payer_lamports := new_payer
              attestation_lamports := 0
              attestation_closed := true
              event := some { schema := attestation.schema
                              attestation_data := attestation.data } }

/-- Modelled from the spec: section 4.4 ChangeAuthorizedSigners (the
processor source is absent from src/): authority-only — the authority must
have signed and be the credential authority — and it replaces the
credential signer set wholesale with the new ordered set; duplicates are
rejected, the empty set is permitted. -/
def process_change_authorized_signers (authority_info : AccountInfo)
    (c : Credential) (new_signer_list : List Pubkey) : Except SasError Credential :=
  (verify_signer authority_info).bind fun _ =>
  if authority_info.key ≠ c.authority then .error .InvalidAuthority
  else if ¬ new_signer_list.Nodup then .error .InvalidAccountData
  else .ok { c with authorized_signers := new_signer_list }

/-- The structural checks of create attestation that do not involve the
signer membership or the business rules: signature flag, system program
id, program ownership of credential and schema, and entity
deserialization of both (create_attestation.rs:35-50 minus line 47). -/
def createBaseChecks (pid : Pubkey) (accs : CreateAccounts)
    (c : Credential) (s : Schema) : Prop :=
  accs.authorized_signer.is_signer = true ∧
  accs.system_program.key = systemProgramId ∧
  accs.credential_info.owner = pid ∧
  accs.schema_info.owner = pid ∧
  accs.credential_info.data = .credentialData c ∧
  accs.schema_info.data = .schemaData s

/-- The structural checks of close attestation that do not involve the
signer membership or the token/binding/balance rules
(close_attestation.rs:34-52 minus line 49). -/
def closeBaseChecks (pid : Pubkey) (accs : CloseAccounts)
    (c : Credential) (a : Attestation) : Prop :=
  accs.authorized_signer.is_signer = true ∧
  accs.system_program.key = systemProgramId ∧
  accs.attestation_program.key = pid ∧
  accs.credential_info.owner = pid ∧
  accs.attestation_info.owner = pid ∧
  accs.attestation_info.is_writable = true ∧
  accs.credential_info.data = .credentialData c ∧
  accs.attestation_info.data = .attestationData a

instance (pid : Pubkey) (accs : CreateAccounts) (c : Credential) (s : Schema) :
    Decidable (createBaseChecks pid accs c s) := by
  unfold createBaseChecks
  infer_instance

instance (pid : Pubkey) (accs : CloseAccounts) (c : Credential) (a : Attestation) :
    Decidable (closeBaseChecks pid accs c a) := by
  unfold closeBaseChecks
  infer_instance

/-- The token consistency rule of close_attestation.rs:56-62: a supplied
reference must equal the stored one; an absent reference requires the
stored one to be the default pubkey. -/
def tokenConsistent (tok : Option Pubkey) (stored : Pubkey) : Prop :=
  match tok with
  | some t => t = stored
  | none => stored = defaultPubkey

instance (tok : Option Pubkey) (stored : Pubkey) :
    Decidable (tokenConsistent tok stored) := by
  unfold tokenConsistent
  cases tok <;> infer_instance

/-- Result state written by a successful close of the given accounts. -/
def closeResultOf (accs : CloseAccounts) (a : Attestation) : CloseResult :=
  { payer_lamports := accs.payer.lamports + accs.attestation_info.lamports
    attestation_lamports := 0
    attestation_closed := true
    event := some { schema := a.schema, attestation_data := a.data } }

end Sas

namespace Sas

/-! Concrete fixtures used by the witnesses and counterexamples. -/

/-- Program id used by the concrete fixtures. -/
def pid0 : Pubkey := 42

/-- A credential whose single authorized signer is key 6. -/
def cred0 : Credential := { authority := 5, name := [7], authorized_signers := [6] }

/-- The same credential but with signer 6 not in the signer set. -/
def credBad : Credential := { authority := 5, name := [7], authorized_signers := [77] }

/-- A live, non-paused schema bound to credential key 200 with a single
u8 field. -/
def schema0 : Schema :=
  { credential := 200, name := [8], version := 1, layout := [0], is_paused := false }

/-- Helper to build a concrete account. -/
def mkAcct (key owner : Pubkey) (sgn wr : Bool) (lam : Nat) (d : AccountData) :
    AccountInfo :=
  { key := key, owner := owner, is_signer := sgn, is_writable := wr,
    lamports := lam, data := d }

/-- Concrete create-attestation account list: signer 6 signed, credential
at key 200 and schema at key 300 owned by the program, attestation account
at the derived PDA. -/
def createAccs0 : CreateAccounts :=
  { payer := mkAcct 1 0 true true 1000 .empty
    authorized_signer := mkAcct 6 0 true false 0 .empty
    credential_info := mkAcct 200 pid0 false false 100 (.credentialData cred0)
    schema_info := mkAcct 300 pid0 false false 100 (.schemaData schema0)
    attestation_info := mkAcct (deriveAttestationPda 200 300 9) 0 false true 0 .empty
    system_program := mkAcct systemProgramId 0 false false 0 .empty }

/-- createAccs0 with the credential whose signer set excludes signer 6. -/
def createAccsBad : CreateAccounts :=
  { createAccs0 with
      credential_info := mkAcct 200 pid0 false false 100 (.credentialData credBad) }

/-- Replace the stored credential record of a create account list. -/
def CreateAccounts.setCredential (accs : CreateAccounts) (c : Credential) :
    CreateAccounts :=
  { accs with
      credential_info := { accs.credential_info with data := .credentialData c } }

/-- Concrete create arguments: nonce 9, a single u8 byte, no expiry. -/
def args0 : CreateArgs := { nonce := 9, data := [7], expiry := 0, token_account := none }

/-- The credential authority account, signing. -/
def authInfo0 : AccountInfo := mkAcct 5 0 true false 0 .empty

/-- A stored non-tokenized attestation bound to credential key 400. -/
def att0 : Attestation :=
  { nonce := 9, credential := 400, schema := 300, data := [7], signer := 6,
    expiry := 123, token_account := defaultPubkey }

/-- Concrete close-attestation account list for att0: all checks of
close_attestation.rs pass with no token reference supplied. -/
def closeAccs0 : CloseAccounts :=
  { payer := mkAcct 1 0 true true 1000 .empty
    authorized_signer := mkAcct 6 0 true false 0 .empty
    credential_info := mkAcct 400 pid0 false false 100 (.credentialData cred0)
    attestation_info := mkAcct 500 pid0 false true 800 (.attestationData att0)
    event_authority_info := mkAcct eventAuthorityId 0 false false 0 .empty
    system_program := mkAcct systemProgramId 0 false false 0 .empty
    attestation_program := mkAcct pid0 0 false false 0 .empty }

/-- closeAccs0 with the payer balance at the u64 maximum, so that adding
the attestation balance overflows. -/
def closeAccsOverflow : CloseAccounts :=
  { closeAccs0 with payer := mkAcct 1 0 true true (u64Modulus - 1) .empty }

/-- Replace the expiry stored in the attestation record of a close account
list (identity when the account does not hold an attestation record). -/
def CloseAccounts.withExpiry (accs : CloseAccounts) (e : Int) : CloseAccounts :=
  { accs with
      attestation_info :=
        { accs.attestation_info with
            data := match accs.attestation_info.data with
              | .attestationData a => .attestationData { a with expiry := e }
              | d => d } }

/-! Master run and inversion lemmas for the two processors. -/

lemma bind_ok {ε α β : Type} {x : Except ε α} {f : α → Except ε β} {b : β}
    (h : x.bind f = .ok b) : ∃ a, x = .ok a ∧ f a = .ok b := by
  cases x with
  | ok a => exact ⟨a, rfl, h⟩
  | error e => simp [Except.bind] at h

lemma verify_signer_ok {a : AccountInfo} {u : Unit}
    (h : verify_signer a = .ok u) : a.is_signer = true := by
  unfold verify_signer at h
  split at h
  · assumption
  · cases h

lemma verify_system_program_ok {a : AccountInfo} {u : Unit}
    (h : verify_system_program a = .ok u) : a.key = systemProgramId := by
  unfold verify_system_program at h
  split at h
  · assumption
  · cases h

lemma verify_current_program_ok {pid : Pubkey} {a : AccountInfo} {u : Unit}
    (h : verify_current_program pid a = .ok u) : a.key = pid := by
  unfold verify_current_program at h
  split at h
  · assumption
  · cases h

lemma verify_owner_mutability_ok {a : AccountInfo} {pid : Pubkey} {w : Bool} {u : Unit}
    (h : verify_owner_mutability a pid w = .ok u) :
    a.owner = pid ∧ (w = true → a.is_writable = true) := by
  unfold verify_owner_mutability at h
  split at h
  · cases h
  · split at h
    · cases h
    · rename_i hown hwr
      refine ⟨by simpa using hown, fun hw => ?_⟩
      subst hw
      simpa using hwr

lemma credential_from_bytes_ok {d : AccountData} {c : Credential}
    (h : Credential.try_from_bytes d = .ok c) : d = .credentialData c := by
  unfold Credential.try_from_bytes at h
  split at h
  · cases h
    rfl
  · cases h

lemma schema_from_bytes_ok {d : AccountData} {s : Schema}
    (h : Schema.try_from_bytes d = .ok s) : d = .schemaData s := by
  unfold Schema.try_from_bytes at h
  split at h
  · cases h
    rfl
  · cases h

lemma attestation_from_bytes_ok {d : AccountData} {a : Attestation}
    (h : Attestation.try_from_bytes d = .ok a) : d = .attestationData a := by
  unfold Attestation.try_from_bytes at h
  split at h
  · cases h
    rfl
  · cases h

lemma validate_authorized_signer_ok {c : Credential} {k : Pubkey} {u : Unit}
    (h : c.validate_authorized_signer k = .ok u) : k ∈ c.authorized_signers := by
  unfold Credential.validate_authorized_signer at h
  split at h
  · assumption
  · cases h

lemma checked_add_u64_ok {a b v : Nat} (h : checked_add_u64 a b = some v) :
    a + b < u64Modulus ∧ v = a + b := by
  unfold checked_add_u64 at h
  split at h
  · cases h
    exact ⟨by assumption, rfl⟩
  · cases h

lemma create_run (pid : Pubkey) (now : Int) (args : CreateArgs) (accs : CreateAccounts)
    (c : Credential) (s : Schema)
    (hb : createBaseChecks pid accs c s)
    (hmem : accs.authorized_signer.key ∈ c.authorized_signers)
    (hp : s.is_paused = false)
    (hbind : s.credential = accs.credential_info.key)
    (hexp : args.expiry = 0 ∨ now ≤ args.expiry)
    (hpda : accs.attestation_info.key =
      deriveAttestationPda accs.credential_info.key accs.schema_info.key args.nonce)
    (hdata : validateWalk s.layout args.data = true) :
    process_create_attestation pid now args accs =
      .ok (mkAttestation args accs, attestationSpace args, createTrace) := by
  obtain ⟨h1, h2, h3, h4, h5, h6⟩ := hb
  have hexp2 : ¬ (args.expiry < now ∧ args.expiry ≠ 0) := by
    rcases hexp with h | h
    · simp [h]
    · rintro ⟨hlt, -⟩
      exact absurd hlt (not_lt.mpr h)
  unfold process_create_attestation verify_signer verify_system_program
    verify_owner_mutability
  rw [h5, h6]
  simp [Credential.try_from_bytes, Schema.try_from_bytes,
    Credential.validate_authorized_signer, Except.bind, h1, h2, h3, h4, hmem, hp,
    hbind, hexp2, hpda, Attestation.validate_data, mkAttestation, hdata, createTrace]

lemma create_ok_inv (pid : Pubkey) (now : Int) (args : CreateArgs)
    (accs : CreateAccounts) (r : Attestation × Nat × List Step)
    (h : process_create_attestation pid now args accs = .ok r) :
    ∃ c s, createBaseChecks pid accs c s ∧
      accs.authorized_signer.key ∈ c.authorized_signers ∧
      s.is_paused = false ∧
      s.credential = accs.credential_info.key ∧
      (args.expiry = 0 ∨ now ≤ args.expiry) ∧
      accs.attestation_info.key =
        deriveAttestationPda accs.credential_info.key accs.schema_info.key args.nonce ∧
      validateWalk s.layout args.data = true ∧
      r = (mkAttestation args accs, attestationSpace args, createTrace) := by
  unfold process_create_attestation at h
  obtain ⟨u1, hv1, h⟩ := bind_ok h
  obtain ⟨u2, hv2, h⟩ := bind_ok h
  obtain ⟨u3, hv3, h⟩ := bind_ok h
  obtain ⟨u4, hv4, h⟩ := bind_ok h
  obtain ⟨c, hc, h⟩ := bind_ok h
  obtain ⟨u5, hv5, h⟩ := bind_ok h
  obtain ⟨s, hs, h⟩ := bind_ok h
  refine ⟨c, s, ⟨verify_signer_ok hv1, verify_system_program_ok hv2,
    (verify_owner_mutability_ok hv3).1, (verify_owner_mutability_ok hv4).1,
    credential_from_bytes_ok hc, schema_from_bytes_ok hs⟩,
    validate_authorized_signer_ok hv5, ?_⟩
  split at h
  · cases h
  split at h
  · cases h
  split at h
  · cases h
  split at h
  · cases h
  split at h
  · cases h
  rename_i hpause hbind hfresh hpda hdata
  cases h
  refine ⟨by simpa using hpause, by simpa using hbind, by omega, by simpa using hpda,
    by simpa [Attestation.validate_data, mkAttestation] using hdata, rfl⟩

lemma close_run (pid : Pubkey) (tok : Option Pubkey) (accs : CloseAccounts)
    (c : Credential) (a : Attestation)
    (hb : closeBaseChecks pid accs c a)
    (hmem : accs.authorized_signer.key ∈ c.authorized_signers)
    (htok : tokenConsistent tok a.token_account)
    (hbind : a.credential = accs.credential_info.key)
    (hsum : accs.payer.lamports + accs.attestation_info.lamports < u64Modulus)
    (hev : accs.event_authority_info.key = eventAuthorityId) :
    process_close_attestation pid tok accs = .ok (closeResultOf accs a) := by
  obtain ⟨h1, h2, h3, h4, h5, h6, h7, h8⟩ := hb
  unfold process_close_attestation verify_signer verify_system_program
    verify_current_program verify_owner_mutability checked_add_u64
  rw [h7, h8]
  cases tok with
  | some t =>
      simp only [tokenConsistent] at htok
      simp [Credential.try_from_bytes, Attestation.try_from_bytes,
        Credential.validate_authorized_signer, Except.bind, h1, h2, h3, h4, h5, h6,
        hmem, htok, hbind, hsum, hev, closeResultOf]
  | none =>
      simp only [tokenConsistent] at htok
      simp [Credential.try_from_bytes, Attestation.try_from_bytes,
        Credential.validate_authorized_signer, Except.bind, h1, h2, h3, h4, h5, h6,
        hmem, htok, hbind, hsum, hev, closeResultOf]

lemma close_ok_inv (pid : Pubkey) (tok : Option Pubkey) (accs : CloseAccounts)
    (r : CloseResult)
    (h : process_close_attestation pid tok accs = .ok r) :
    ∃ c a, closeBaseChecks pid accs c a ∧
      accs.authorized_signer.key ∈ c.authorized_signers ∧
      tokenConsistent tok a.token_account ∧
      a.credential = accs.credential_info.key ∧
      accs.payer.lamports + accs.attestation_info.lamports < u64Modulus ∧
      accs.event_authority_info.key = eventAuthorityId ∧
      r = closeResultOf accs a := by
  unfold process_close_attestation at h
  obtain ⟨u1, hv1, h⟩ := bind_ok h
  obtain ⟨u2, hv2, h⟩ := bind_ok h
  obtain ⟨u3, hv3, h⟩ := bind_ok h
  obtain ⟨u4, hv4, h⟩ := bind_ok h
  obtain ⟨u5, hv5, h⟩ := bind_ok h
  obtain ⟨c, hc, h⟩ := bind_ok h
  obtain ⟨u6, hv6, h⟩ := bind_ok h
  obtain ⟨a, ha, h⟩ := bind_ok h
  obtain ⟨u7, hv7, h⟩ := bind_ok h
  have htok : tokenConsistent tok a.token_account := by
    cases tok with
    | some t =>
        simp only [tokenConsistent]
        by_cases ht : t = a.token_account
        · exact ht
        · simp [ht] at hv7
    | none =>
        simp only [tokenConsistent]
        by_cases ht : a.token_account = defaultPubkey
        · exact ht
        · simp [ht] at hv7
  split at h
  · cases h
  rename_i hbind
  rcases hadd : checked_add_u64 accs.payer.lamports accs.attestation_info.lamports with
    _ | v
  · simp [hadd] at h
  · simp only [hadd] at h
    split at h
    · cases h
    rename_i hev
    obtain ⟨hsum, hveq⟩ := checked_add_u64_ok hadd
    refine ⟨c, a, ⟨verify_signer_ok hv1, verify_system_program_ok hv2,
      verify_current_program_ok hv3, (verify_owner_mutability_ok hv4).1,
      (verify_owner_mutability_ok hv5).1, (verify_owner_mutability_ok hv5).2 rfl,
      credential_from_bytes_ok hc, attestation_from_bytes_ok ha⟩,
      validate_authorized_signer_ok hv6, htok, by simpa using hbind, hsum,
      by simpa using hev, ?_⟩
    cases h
    simp [closeResultOf, hveq]

lemma create_err_not_member (pid : Pubkey) (now : Int) (args : CreateArgs)
    (accs : CreateAccounts) (c : Credential) (s : Schema)
    (hb : createBaseChecks pid accs c s)
    (hnot : accs.authorized_signer.key ∉ c.authorized_signers) :
    process_create_attestation pid now args accs = .error .InvalidAuthority := by
  obtain ⟨h1, h2, h3, h4, h5, h6⟩ := hb
  unfold process_create_attestation verify_signer verify_system_program
    verify_owner_mutability
  rw [h5]
  simp [Credential.try_from_bytes, Credential.validate_authorized_signer,
    Except.bind, h1, h2, h3, h4, hnot]

lemma create_err_paused (pid : Pubkey) (now : Int) (args : CreateArgs)
    (accs : CreateAccounts) (c : Credential) (s : Schema)
    (hb : createBaseChecks pid accs c s)
    (hmem : accs.authorized_signer.key ∈ c.authorized_signers)
    (hp : s.is_paused = true) :
    process_create_attestation pid now args accs = .error .SchemaPaused := by
  obtain ⟨h1, h2, h3, h4, h5, h6⟩ := hb
  unfold process_create_attestation verify_signer verify_system_program
    verify_owner_mutability
  rw [h5, h6]
  simp [Credential.try_from_bytes, Schema.try_from_bytes,
    Credential.validate_authorized_signer, Except.bind, h1, h2, h3, h4, hmem, hp]

lemma create_err_stale (pid : Pubkey) (now : Int) (args : CreateArgs)
    (accs : CreateAccounts) (c : Credential) (s : Schema)
    (hb : createBaseChecks pid accs c s)
    (hmem : accs.authorized_signer.key ∈ c.authorized_signers)
    (hp : s.is_paused = false)
    (hbind : s.credential = accs.credential_info.key)
    (hstale : args.expiry < now ∧ args.expiry ≠ 0) :
    process_create_attestation pid now args accs = .error .InvalidAttestationData := by
  obtain ⟨h1, h2, h3, h4, h5, h6⟩ := hb
  unfold process_create_attestation verify_signer verify_system_program
    verify_owner_mutability
  rw [h5, h6]
  simp [Credential.try_from_bytes, Schema.try_from_bytes,
    Credential.validate_authorized_signer, Except.bind, h1, h2, h3, h4, hmem, hp,
    hbind, hstale]

lemma create_err_pda (pid : Pubkey) (now : Int) (args : CreateArgs)
    (accs : CreateAccounts) (c : Credential) (s : Schema)
    (hb : createBaseChecks pid accs c s)
    (hmem : accs.authorized_signer.key ∈ c.authorized_signers)
    (hp : s.is_paused = false)
    (hbind : s.credential = accs.credential_info.key)
    (hexp : args.expiry = 0 ∨ now ≤ args.expiry)
    (hpda : accs.attestation_info.key ≠
      deriveAttestationPda accs.credential_info.key accs.schema_info.key args.nonce) :
    process_create_attestation pid now args accs = .error .InvalidAttestation := by
  obtain ⟨h1, h2, h3, h4, h5, h6⟩ := hb
  have hexp2 : ¬ (args.expiry < now ∧ args.expiry ≠ 0) := by
    rcases hexp with h | h
    · simp [h]
    · rintro ⟨hlt, -⟩
      exact absurd hlt (not_lt.mpr h)
  unfold process_create_attestation verify_signer verify_system_program
    verify_owner_mutability
  rw [h5, h6]
  simp [Credential.try_from_bytes, Schema.try_from_bytes,
    Credential.validate_authorized_signer, Except.bind, h1, h2, h3, h4, hmem, hp,
    hbind, hexp2, hpda]

lemma close_err_not_member (pid : Pubkey) (tok : Option Pubkey)
    (accs : CloseAccounts) (c : Credential) (a : Attestation)
    (hb : closeBaseChecks pid accs c a)
    (hnot : accs.authorized_signer.key ∉ c.authorized_signers) :
    process_close_attestation pid tok accs = .error .InvalidAuthority := by
  obtain ⟨h1, h2, h3, h4, h5, h6, h7, h8⟩ := hb
  unfold process_close_attestation verify_signer verify_system_program
    verify_current_program verify_owner_mutability
  rw [h7]
  simp [Credential.try_from_bytes, Credential.validate_authorized_signer,
    Except.bind, h1, h2, h3, h4, h5, h6, hnot]

/-- Replace the stored credential record of a close account list. -/
def CloseAccounts.setCredential (accs : CloseAccounts) (c : Credential) :
    CloseAccounts :=
  { accs with
      credential_info := { accs.credential_info with data := .credentialData c } }

lemma close_expiry_irrelevant (pid : Pubkey) (tok : Option Pubkey)
    (accs : CloseAccounts) (e : Int) :
    process_close_attestation pid tok (accs.withExpiry e) =
      process_close_attestation pid tok accs := by
  unfold CloseAccounts.withExpiry process_close_attestation verify_signer
    verify_system_program verify_current_program verify_owner_mutability
    Credential.try_from_bytes Attestation.try_from_bytes
    Credential.validate_authorized_signer checked_add_u64 Except.bind
  cases hd : accs.attestation_info.data <;> simp [hd]

end Sas

namespace Sas

/-- closeAccs0 with the credential whose signer set excludes signer 6. -/
def closeAccsBad : CloseAccounts :=
  { closeAccs0 with
      credential_info := mkAcct 400 pid0 false false 100 (.credentialData credBad) }

/-! Claim theorems. -/

/-- C1: For every CreateAttestation (and CloseAttestation) invocation,
authorization requires both a valid signature by the supplied signer
account and that signer's membership in the credential authorized-signer
set: an invocation whose signer validly signed but is not a member fails
with InvalidAuthority, and after that identity is added via
ChangeAuthorizedSigners the same invocation succeeds. -/
theorem c1_dual_authority (pid : Pubkey) (now : Int) (args : CreateArgs)
    (accs : CreateAccounts) (caccs : CloseAccounts) (tok : Option Pubkey)
    (c : Credential) (s : Schema) (a : Attestation)
    (new_signer_list : List Pubkey) (authority_info : AccountInfo)
    (hb : createBaseChecks pid accs c s)
    (hp : s.is_paused = false)
    (hbind : s.credential = accs.credential_info.key)
    (hexp : args.expiry = 0 ∨ now ≤ args.expiry)
    (hpda : accs.attestation_info.key =
      deriveAttestationPda accs.credential_info.key accs.schema_info.key args.nonce)
    (hdata : validateWalk s.layout args.data = true)
    (hcb : closeBaseChecks pid caccs c a)
    (hsame : caccs.authorized_signer.key = accs.authorized_signer.key)
    (htok : tokenConsistent tok a.token_account)
    (habind : a.credential = caccs.credential_info.key)
    (hsum : caccs.payer.lamports + caccs.attestation_info.lamports < u64Modulus)
    (hev : caccs.event_authority_info.key = eventAuthorityId)
    (hnot : accs.authorized_signer.key ∉ c.authorized_signers)
    (hasig : authority_info.is_signer = true)
    (hak : authority_info.key = c.authority)
    (hnew : accs.authorized_signer.key ∈ new_signer_list)
    (hnodup : new_signer_list.Nodup) :
    process_create_attestation pid now args accs = .error .InvalidAuthority ∧
    process_close_attestation pid tok caccs = .error .InvalidAuthority ∧
    process_change_authorized_signers authority_info c new_signer_list =
      .ok { c with authorized_signers := new_signer_list } ∧
    process_create_attestation pid now args
        (accs.setCredential { c with authorized_signers := new_signer_list }) =
      .ok (mkAttestation args
            (accs.setCredential { c with authorized_signers := new_signer_list }),
        attestationSpace args, createTrace) ∧
    process_close_attestation pid tok
        (caccs.setCredential { c with authorized_signers := new_signer_list }) =
      .ok (closeResultOf
        (caccs.setCredential { c with authorized_signers := new_signer_list }) a) := by
  obtain ⟨h1, h2, h3, h4, h5, h6⟩ := hb
  obtain ⟨k1, k2, k3, k4, k5, k6, k7, k8⟩ := hcb
  refine ⟨?_, ?_, ?_, ?_, ?_⟩
  · exact create_err_not_member pid now args accs c s ⟨h1, h2, h3, h4, h5, h6⟩ hnot
  · refine close_err_not_member pid tok caccs c a ⟨k1, k2, k3, k4, k5, k6, k7, k8⟩ ?_
    rw [hsame]
    exact hnot
  · unfold process_change_authorized_signers verify_signer
    simp [Except.bind, hasig, hak, hnodup]
  · refine create_run pid now args _ { c with authorized_signers := new_signer_list } s
      ⟨h1, h2, h3, h4, rfl, h6⟩ hnew hp hbind hexp hpda hdata
  · refine close_run pid tok _ { c with authorized_signers := new_signer_list } a
      ⟨k1, k2, k3, k4, k5, k6, rfl, k8⟩ ?_ htok habind hsum hev
    show caccs.authorized_signer.key ∈ new_signer_list
    rw [hsame]
    exact hnew

/-- C1 witness: the concrete fixtures — signer 6 signed but is not a
member of credBad, so both create and close fail with InvalidAuthority;
after the authority replaces the signer set with [6], both succeed. -/
theorem c1_dual_authority_witness :
    process_create_attestation pid0 100 args0 createAccsBad = .error .InvalidAuthority ∧
    process_close_attestation pid0 none closeAccsBad = .error .InvalidAuthority ∧
    process_change_authorized_signers authInfo0 credBad [6] =
      .ok { credBad with authorized_signers := [6] } ∧
    process_create_attestation pid0 100 args0
        (createAccsBad.setCredential { credBad with authorized_signers := [6] }) =
      .ok (mkAttestation args0
            (createAccsBad.setCredential { credBad with authorized_signers := [6] }),
        attestationSpace args0, createTrace) ∧
    process_close_attestation pid0 none
        (closeAccsBad.setCredential { credBad with authorized_signers := [6] }) =
      .ok (closeResultOf
        (closeAccsBad.setCredential { credBad with authorized_signers := [6] }) att0) :=
  c1_dual_authority pid0 100 args0 createAccsBad closeAccsBad none credBad schema0 att0
    [6] authInfo0 (by decide) (by decide) (by decide) (by decide) (by decide)
    (by decide) (by decide) (by decide) (by decide) (by decide) (by decide)
    (by decide) (by decide) (by decide) (by decide) (by decide) (by decide)

/-- C2: For every successful CloseAttestation, the attestation account
backing balance afterwards is zero and the payer balance increased by
exactly the attestation pre-close balance; if adding the attestation
balance to the payer balance would overflow a u64, the operation fails
with no state change, leaving the attestation un-closed. -/
theorem c2_close_balance_transfer :
    (∀ (pid : Pubkey) (tok : Option Pubkey) (accs : CloseAccounts) (r : CloseResult),
      process_close_attestation pid tok accs = .ok r →
        r.payer_lamports = accs.payer.lamports + accs.attestation_info.lamports ∧
        r.attestation_lamports = 0 ∧
        r.attestation_closed = true) ∧
    (∀ (pid : Pubkey) (tok : Option Pubkey) (accs : CloseAccounts),
      u64Modulus ≤ accs.payer.lamports + accs.attestation_info.lamports →
        ∀ r : CloseResult, process_close_attestation pid tok accs ≠ .ok r) := by
  constructor
  · intro pid tok accs r h
    obtain ⟨c, a, -, -, -, -, -, -, hr⟩ := close_ok_inv pid tok accs r h
    subst hr
    simp [closeResultOf]
  · intro pid tok accs hof r h
    obtain ⟨c, a, -, -, -, -, hsum, -, -⟩ := close_ok_inv pid tok accs r h
    omega

/-- C2 witness: a concrete successful close transfers the 800 lamports of
the attestation to the payer (1000 becomes 1800) and zeroes the
attestation balance; the same close with the payer at u64 maximum fails. -/
theorem c2_close_balance_transfer_witness :
    ((closeResultOf closeAccs0 att0).payer_lamports =
        closeAccs0.payer.lamports + closeAccs0.attestation_info.lamports ∧
      (closeResultOf closeAccs0 att0).attestation_lamports = 0 ∧
      (closeResultOf closeAccs0 att0).attestation_closed = true) ∧
    (∀ r : CloseResult, process_close_attestation pid0 none closeAccsOverflow ≠ .ok r) :=
  ⟨c2_close_balance_transfer.1 pid0 none closeAccs0 (closeResultOf closeAccs0 att0)
      (by decide),
    c2_close_balance_transfer.2 pid0 none closeAccsOverflow (by decide)⟩

end Sas

namespace Sas

/-- C3 counterexample: closing the non-tokenized attestation att0 (stored
token reference is the default pubkey) while SUPPLYING the token reference
some defaultPubkey succeeds, because the supplied-reference branch of
close_attestation.rs:56-62 only compares the supplied value against the
stored one; the claim says supplying any reference on a non-tokenized
attestation must fail. -/
theorem c3_token_counterexample :
    att0.token_account = defaultPubkey ∧
    process_close_attestation pid0 (some defaultPubkey) closeAccs0 =
      .ok (closeResultOf closeAccs0 att0) := by
  constructor
  · decide
  · decide

/-- C3 (amended): in a CloseAttestation invocation whose other checks all
pass, the close succeeds exactly when the token reference rule of
close_attestation.rs:56-62 holds: a supplied reference must equal the
stored one (so for a tokenized attestation a different reference or an
absent reference fails), and an absent reference requires the stored
reference to be the default value; for a non-tokenized attestation the
close succeeds with no reference supplied and also with the default value
itself supplied — only a non-default reference fails. -/
theorem c3_token_consistency (pid : Pubkey) (tok : Option Pubkey)
    (accs : CloseAccounts) (c : Credential) (a : Attestation)
    (hb : closeBaseChecks pid accs c a)
    (hmem : accs.authorized_signer.key ∈ c.authorized_signers)
    (hbind : a.credential = accs.credential_info.key)
    (hsum : accs.payer.lamports + accs.attestation_info.lamports < u64Modulus)
    (hev : accs.event_authority_info.key = eventAuthorityId) :
    (∃ r, process_close_attestation pid tok accs = .ok r) ↔
      tokenConsistent tok a.token_account := by
  constructor
  · rintro ⟨r, hr⟩
    obtain ⟨c2, a2, hb2, -, htok2, -, -, -, -⟩ := close_ok_inv pid tok accs r hr
    obtain ⟨-, -, -, -, -, -, -, k8⟩ := hb
    obtain ⟨-, -, -, -, -, -, -, k8b⟩ := hb2
    have : a = a2 := by
      rw [k8] at k8b
      exact AccountData.attestationData.inj k8b
    rw [this]
    exact htok2
  · intro htok
    exact ⟨closeResultOf accs a, close_run pid tok accs c a hb hmem htok hbind hsum hev⟩

/-- C3 witness: at the concrete fixtures with the matching supplied
reference some defaultPubkey, the equivalence applies and both sides hold. -/
theorem c3_token_consistency_witness :
    (∃ r, process_close_attestation pid0 (some defaultPubkey) closeAccs0 = .ok r) ↔
      tokenConsistent (some defaultPubkey) att0.token_account :=
  c3_token_consistency pid0 (some defaultPubkey) closeAccs0 cred0 att0
    (by decide) (by decide) (by decide) (by decide) (by decide)

/-- CreateArgs with the expiry replaced. -/
def CreateArgs.withExpiry (args : CreateArgs) (e : Int) : CreateArgs :=
  { args with expiry := e }

@[simp] lemma CreateArgs.withExpiry_expiry (args : CreateArgs) (e : Int) :
    (args.withExpiry e).expiry = e := rfl

/-- C4 counterexample: at current time 100 an expiry of exactly 100
satisfies 0 < expiry and expiry <= current_time, so the claim says it is
rejected as stale; the code comparison expiry < now (create_attestation.rs
63-66) is strict, so the invocation succeeds. -/
theorem c4_expiry_counterexample :
    (0 : Int) < (args0.withExpiry 100).expiry ∧
    (args0.withExpiry 100).expiry ≤ (100 : Int) ∧
    process_create_attestation pid0 100 (args0.withExpiry 100) createAccs0 =
      .ok (mkAttestation (args0.withExpiry 100) createAccs0,
        attestationSpace (args0.withExpiry 100), createTrace) := by
  refine ⟨by decide, by decide, by decide⟩

/-- C4 (amended): in a CreateAttestation invocation whose other checks all
pass, the accepted expiry values are exactly expiry == 0 (no expiry) and
expiry >= current_time; every nonzero expiry strictly below current_time
is rejected as stale (the tie expiry == current_time is accepted, per the
strict < comparison of create_attestation.rs:63-66). -/
theorem c4_expiry_rule (pid : Pubkey) (now : Int) (args : CreateArgs)
    (accs : CreateAccounts) (c : Credential) (s : Schema)
    (hb : createBaseChecks pid accs c s)
    (hmem : accs.authorized_signer.key ∈ c.authorized_signers)
    (hp : s.is_paused = false)
    (hbind : s.credential = accs.credential_info.key)
    (hpda : accs.attestation_info.key =
      deriveAttestationPda accs.credential_info.key accs.schema_info.key args.nonce)
    (hdata : validateWalk s.layout args.data = true) :
    (∃ r, process_create_attestation pid now args accs = .ok r) ↔
      (args.expiry = 0 ∨ now ≤ args.expiry) := by
  constructor
  · rintro ⟨r, hr⟩
    obtain ⟨c2, s2, -, -, -, -, hexp, -, -, -⟩ := create_ok_inv pid now args accs r hr
    exact hexp
  · intro hexp
    exact ⟨_, create_run pid now args accs c s hb hmem hp hbind hexp hpda hdata⟩

/-- C4 witness: the equivalence applied at the concrete fixtures with the
tie expiry 100 at current time 100. -/
theorem c4_expiry_rule_witness :
    (∃ r, process_create_attestation pid0 100 (args0.withExpiry 100) createAccs0 =
      .ok r) ↔
      ((args0.withExpiry 100).expiry = 0 ∨ (100 : Int) ≤ (args0.withExpiry 100).expiry) :=
  c4_expiry_rule pid0 100 (args0.withExpiry 100) createAccs0 cred0 schema0
    (by decide) (by decide) (by decide) (by decide) (by decide) (by decide)

/-- C5: CreateAttestation expiry boundary, in an invocation whose other
checks all pass and whose current time exceeds 1 (so that current_time - 1
is a nonzero timestamp): expiry = 0 succeeds, expiry = current_time + 1
succeeds, expiry = current_time succeeds (the exact tie is valid, not
stale, per the strict < comparison), and expiry = current_time - 1 fails
with InvalidAttestationData. -/
theorem c5_expiry_boundary (pid : Pubkey) (now : Int) (args : CreateArgs)
    (accs : CreateAccounts) (c : Credential) (s : Schema)
    (hb : createBaseChecks pid accs c s)
    (hmem : accs.authorized_signer.key ∈ c.authorized_signers)
    (hp : s.is_paused = false)
    (hbind : s.credential = accs.credential_info.key)
    (hpda : accs.attestation_info.key =
      deriveAttestationPda accs.credential_info.key accs.schema_info.key args.nonce)
    (hdata : validateWalk s.layout args.data = true)
    (hnow : 1 < now) :
    process_create_attestation pid now (args.withExpiry 0) accs =
      .ok (mkAttestation (args.withExpiry 0) accs,
        attestationSpace (args.withExpiry 0), createTrace) ∧
    process_create_attestation pid now (args.withExpiry (now + 1)) accs =
      .ok (mkAttestation (args.withExpiry (now + 1)) accs,
        attestationSpace (args.withExpiry (now + 1)), createTrace) ∧
    process_create_attestation pid now (args.withExpiry now) accs =
      .ok (mkAttestation (args.withExpiry now) accs,
        attestationSpace (args.withExpiry now), createTrace) ∧
    process_create_attestation pid now (args.withExpiry (now - 1)) accs =
      .error .InvalidAttestationData := by
  refine ⟨create_run pid now _ accs c s hb hmem hp hbind (Or.inl rfl) hpda hdata,
    create_run pid now _ accs c s hb hmem hp hbind
      (Or.inr (by simp only [CreateArgs.withExpiry_expiry]; omega)) hpda hdata,
    create_run pid now _ accs c s hb hmem hp hbind
      (Or.inr (by simp only [CreateArgs.withExpiry_expiry]; omega)) hpda hdata,
    create_err_stale pid now _ accs c s hb hmem hp hbind
      ⟨by simp only [CreateArgs.withExpiry_expiry]; omega,
        by simp only [CreateArgs.withExpiry_expiry]; omega⟩⟩

/-- C5 witness: the boundary quadruple at the concrete fixtures with
current time 100. -/
theorem c5_expiry_boundary_witness :
    process_create_attestation pid0 100 (args0.withExpiry 0) createAccs0 =
      .ok (mkAttestation (args0.withExpiry 0) createAccs0,
        attestationSpace (args0.withExpiry 0), createTrace) ∧
    process_create_attestation pid0 100 (args0.withExpiry 101) createAccs0 =
      .ok (mkAttestation (args0.withExpiry 101) createAccs0,
        attestationSpace (args0.withExpiry 101), createTrace) ∧
    process_create_attestation pid0 100 (args0.withExpiry 100) createAccs0 =
      .ok (mkAttestation (args0.withExpiry 100) createAccs0,
        attestationSpace (args0.withExpiry 100), createTrace) ∧
    process_create_attestation pid0 100 (args0.withExpiry 99) createAccs0 =
      .error .InvalidAttestationData := by
  have h := c5_expiry_boundary pid0 100 args0 createAccs0 cred0 schema0
    (by decide) (by decide) (by decide) (by decide) (by decide) (by decide)
    (by decide)
  exact h

/-- C6: CreateAttestation against a schema whose paused flag is set fails
with the schema-paused error (and creates nothing, since any error leaves
state untouched); and any successful creation parsed its schema with the
paused flag clear. -/
theorem c6_schema_paused :
    (∀ (pid : Pubkey) (now : Int) (args : CreateArgs) (accs : CreateAccounts)
      (c : Credential) (s : Schema),
      createBaseChecks pid accs c s →
      accs.authorized_signer.key ∈ c.authorized_signers →
      s.is_paused = true →
      process_create_attestation pid now args accs = .error .SchemaPaused) ∧
    (∀ (pid : Pubkey) (now : Int) (args : CreateArgs) (accs : CreateAccounts)
      (r : Attestation × Nat × List Step),
      process_create_attestation pid now args accs = .ok r →
      ∀ s : Schema, accs.schema_info.data = .schemaData s → s.is_paused = false) := by
  constructor
  · intro pid now args accs c s hb hmem hp
    exact create_err_paused pid now args accs c s hb hmem hp
  · intro pid now args accs r hr s hs
    obtain ⟨c2, s2, hb2, -, hp2, -, -, -, -, -⟩ := create_ok_inv pid now args accs r hr
    obtain ⟨-, -, -, -, -, h6⟩ := hb2
    rw [hs] at h6
    rw [AccountData.schemaData.inj h6]
    exact hp2

end Sas

namespace Sas

/-- schema0 with the paused flag set. -/
def schemaPaused : Schema := { schema0 with is_paused := true }

/-- createAccs0 with the schema account holding the paused schema. -/
def createAccsPaused : CreateAccounts :=
  { createAccs0 with
      schema_info := mkAcct 300 pid0 false false 100 (.schemaData schemaPaused) }

/-- C6 witness: creation against the paused schema fails with SchemaPaused
at the concrete fixtures, and the schema of the successful concrete
creation has the paused flag clear. -/
theorem c6_schema_paused_witness :
    process_create_attestation pid0 100 args0 createAccsPaused =
      .error .SchemaPaused ∧
    schema0.is_paused = false :=
  ⟨c6_schema_paused.1 pid0 100 args0 createAccsPaused cred0 schemaPaused
      (by decide) (by decide) (by decide),
    c6_schema_paused.2 pid0 100 args0 createAccs0
      (mkAttestation args0 createAccs0, attestationSpace args0, createTrace)
      (by decide) schema0 (by decide)⟩

/-- C7 counterexample: CloseAttestation succeeds on the concrete fixtures
although the supplied credential account address differs from the address
re-derived from the credential kind tag with its claimed authority and
name, and the supplied attestation account address differs from the
address re-derived from the attestation kind tag with its stored
credential, schema and nonce — close performs no address re-derivation on
its entity accounts, contradicting the claim that every operation rejects
any such mismatch. -/
theorem c7_derivation_counterexample :
    closeAccs0.credential_info.key ≠ deriveCredentialPda cred0.authority cred0.name ∧
    closeAccs0.attestation_info.key ≠
      deriveAttestationPda att0.credential att0.schema att0.nonce ∧
    process_close_attestation pid0 none closeAccs0 =
      .ok (closeResultOf closeAccs0 att0) := by
  refine ⟨by decide, by decide, by decide⟩

/-- C7 (amended): only CreateAttestation re-derives an entity address — the
supplied attestation account must sit at the address derived from
(attestation tag, credential key, schema key, nonce), and any mismatch is
rejected with InvalidAttestation; the credential and schema accounts of
CreateAttestation and the credential and attestation accounts of
CloseAttestation are instead authenticated by program ownership,
discriminator and stored key-equality checks, without re-derivation. -/
theorem c7_create_pda_check (pid : Pubkey) (now : Int) (args : CreateArgs)
    (accs : CreateAccounts) (c : Credential) (s : Schema)
    (hb : createBaseChecks pid accs c s)
    (hmem : accs.authorized_signer.key ∈ c.authorized_signers)
    (hp : s.is_paused = false)
    (hbind : s.credential = accs.credential_info.key)
    (hexp : args.expiry = 0 ∨ now ≤ args.expiry)
    (hpda : accs.attestation_info.key ≠
      deriveAttestationPda accs.credential_info.key accs.schema_info.key args.nonce) :
    process_create_attestation pid now args accs = .error .InvalidAttestation :=
  create_err_pda pid now args accs c s hb hmem hp hbind hexp hpda

/-- createAccs0 with the attestation account at an address that does not
match the derived attestation PDA. -/
def createAccsWrongPda : CreateAccounts :=
  { createAccs0 with attestation_info := mkAcct 77 0 false true 0 .empty }

/-- C7 witness: the concrete substituted attestation account at address 77
is rejected with InvalidAttestation. -/
theorem c7_create_pda_check_witness :
    process_create_attestation pid0 100 args0 createAccsWrongPda =
      .error .InvalidAttestation :=
  c7_create_pda_check pid0 100 args0 createAccsWrongPda cred0 schema0
    (by decide) (by decide) (by decide) (by decide) (by decide) (by decide)

/-- C8: any CloseAttestation invocation whose event-authority account
differs from the single derived event-authority identity fails (so no
close mutation happens), and every successful close both matched the
event authority exactly and emitted the closure audit event. -/
theorem c8_event_authority :
    (∀ (pid : Pubkey) (tok : Option Pubkey) (accs : CloseAccounts),
      accs.event_authority_info.key ≠ eventAuthorityId →
      ∀ r : CloseResult, process_close_attestation pid tok accs ≠ .ok r) ∧
    (∀ (pid : Pubkey) (tok : Option Pubkey) (accs : CloseAccounts)
      (r : CloseResult),
      process_close_attestation pid tok accs = .ok r →
      accs.event_authority_info.key = eventAuthorityId ∧ r.event.isSome = true) := by
  constructor
  · intro pid tok accs hne r hr
    obtain ⟨-, -, -, -, -, -, -, hev, -⟩ := close_ok_inv pid tok accs r hr
    exact hne hev
  · intro pid tok accs r hr
    obtain ⟨c, a, -, -, -, -, -, hev, hres⟩ := close_ok_inv pid tok accs r hr
    subst hres
    exact ⟨hev, rfl⟩

/-- closeAccs0 with a wrong event-authority account. -/
def closeAccsWrongEv : CloseAccounts :=
  { closeAccs0 with event_authority_info := mkAcct 999 0 false false 0 .empty }

/-- C8 witness: the concrete close with event-authority account 999 can
never succeed, while the successful concrete close matched the event
authority and carries an emitted event. -/
theorem c8_event_authority_witness :
    (∀ r : CloseResult, process_close_attestation pid0 none closeAccsWrongEv ≠ .ok r) ∧
    (closeAccs0.event_authority_info.key = eventAuthorityId ∧
      (closeResultOf closeAccs0 att0).event.isSome = true) :=
  ⟨c8_event_authority.1 pid0 none closeAccsWrongEv (by decide),
    c8_event_authority.2 pid0 none closeAccs0 (closeResultOf closeAccs0 att0)
      (by decide)⟩

/-- C9 counterexample: the concrete successful creation executes the
storage-touching steps in the trace order derive PDA, compute space,
allocate, validate data, write — the allocation strictly precedes the
data layout validation, contradicting the claimed order in which
validation happens before storage allocation. -/
theorem c9_order_counterexample :
    process_create_attestation pid0 100 args0 createAccs0 =
      .ok (mkAttestation args0 createAccs0, attestationSpace args0, createTrace) ∧
    createTrace.indexOf Step.allocate < createTrace.indexOf Step.validateData := by
  refine ⟨by decide, by decide⟩

/-- C9 (amended): every successful CreateAttestation performs its
storage-touching steps in this order: it derives and verifies the
attestation address from (credential, schema, nonce), then computes the
exact storage size, then allocates storage, then validates the data bytes
against the schema layout via the codec, and only then writes the full
attestation record; any failure (including a data-validation failure
after allocation) aborts the whole operation with an error and no state
change, so no intermediate state is observable. -/
theorem c9_step_order (pid : Pubkey) (now : Int) (args : CreateArgs)
    (accs : CreateAccounts) (att : Attestation) (sp : Nat) (tr : List Step)
    (h : process_create_attestation pid now args accs = .ok (att, sp, tr)) :
    tr = [Step.derivePda, Step.computeSpace, Step.allocate,
      Step.validateData, Step.write] ∧
    att = mkAttestation args accs ∧
    sp = attestationSpace args := by
  obtain ⟨c, s, -, -, -, -, -, -, -, hr⟩ :=
    create_ok_inv pid now args accs (att, sp, tr) h
  have h1 : att = mkAttestation args accs := congrArg Prod.fst hr
  have h2 : sp = attestationSpace args := congrArg (fun p => p.2.1) hr
  have h3 : tr = createTrace := congrArg (fun p => p.2.2) hr
  exact ⟨h3.trans rfl, h1, h2⟩

/-- C9 witness: the step-order characterization applied to the concrete
successful creation. -/
theorem c9_step_order_witness :
    createTrace = [Step.derivePda, Step.computeSpace, Step.allocate,
      Step.validateData, Step.write] ∧
    mkAttestation args0 createAccs0 = mkAttestation args0 createAccs0 ∧
    attestationSpace args0 = attestationSpace args0 :=
  c9_step_order pid0 100 args0 createAccs0 (mkAttestation args0 createAccs0)
    (attestationSpace args0) createTrace (by decide)

/-- C10: CloseAttestation checks neither a schema paused flag nor the
attestation expiry: whenever the signature, membership, ownership,
token-consistency, credential-binding, balance and event-authority checks
pass the close succeeds (its account list holds no schema account at all),
and the outcome of any close invocation is unchanged under arbitrary
replacement of the stored attestation expiry — in particular an already
expired attestation closes exactly like an unexpired one. -/
theorem c10_close_ignores_pause_and_expiry :
    (∀ (pid : Pubkey) (tok : Option Pubkey) (accs : CloseAccounts)
      (c : Credential) (a : Attestation),
      closeBaseChecks pid accs c a →
      accs.authorized_signer.key ∈ c.authorized_signers →
      tokenConsistent tok a.token_account →
      a.credential = accs.credential_info.key →
      accs.payer.lamports + accs.attestation_info.lamports < u64Modulus →
      accs.event_authority_info.key = eventAuthorityId →
      process_close_attestation pid tok accs = .ok (closeResultOf accs a)) ∧
    (∀ (pid : Pubkey) (tok : Option Pubkey) (accs : CloseAccounts) (e : Int),
      process_close_attestation pid tok (accs.withExpiry e) =
        process_close_attestation pid tok accs) := by
  constructor
  · intro pid tok accs c a hb hmem htok hbind hsum hev
    exact close_run pid tok accs c a hb hmem htok hbind hsum hev
  · intro pid tok accs e
    exact close_expiry_irrelevant pid tok accs e

/-- C10 witness: the concrete close succeeds under the listed checks, and
setting the stored expiry to the past timestamp -5 leaves the outcome of
the concrete close invocation unchanged. -/
theorem c10_close_ignores_pause_and_expiry_witness :
    process_close_attestation pid0 none closeAccs0 =
      .ok (closeResultOf closeAccs0 att0) ∧
    process_close_attestation pid0 none (closeAccs0.withExpiry (-5)) =
      process_close_attestation pid0 none closeAccs0 :=
  ⟨c10_close_ignores_pause_and_expiry.1 pid0 none closeAccs0 cred0 att0
      (by decide) (by decide) (by decide) (by decide) (by decide) (by decide),
    c10_close_ignores_pause_and_expiry.2 pid0 none closeAccs0 (-5)⟩

end Sas
